import Mathlib

/-!
Verification of the mrcfile utility and validation layer.

The Python source in `src/mrcfile/utils.py` is embedded shallowly below:
numpy record-array header fields become integers and rationals, numpy
integer floor division (which returns 0 on a zero divisor, emitting a
RuntimeWarning instead of raising) becomes `npFloorDiv`, and fallible
conversions return `Except String`.  The validation engine exercised by
`src/tests/test_validation.py` is not itself part of the source tree, so
it is modelled from the specification, pinned to the concrete behaviour
the tests assert.
-/

namespace Mrcfile

/-- Numpy floor division of two signed integers.  Numpy `//` implements
floor division (like Python), except that integer division by zero does
not raise: it emits a RuntimeWarning and returns 0. -/
def npFloorDiv (a b : Int) : Int := if b = 0 then 0 else Int.fdiv a b

/-- Numpy remainder of two signed integers.  Matches Python `%` (sign
follows the divisor), except that a zero divisor yields 0 with a
RuntimeWarning instead of raising. -/
def npMod (a b : Int) : Int := if b = 0 then 0 else Int.fmod a b

/-- Modelled from the spec: `src/mrcfile/constants.py` is not under
`src/`; `utils.py` imports `IMAGE_STACK_SPACEGROUP` from it.  The spec
calls it the specific reserved space-group value denoting a stack of 2D
images, distinct from the volume-stack range 401-630; the MRC format
reserves space group 0 for image stacks. -/
def IMAGE_STACK_SPACEGROUP : Int := 0

/-- Numpy dtype kind characters covered by the embedding: signed and
unsigned integers, floats, complex numbers, booleans, bytes, unicode,
void, datetime, timedelta and object dtypes. -/
inductive NumpyKind
  | i
  | u
  | f
  | c
  | b
  | s
  | usv
  | v
  | m
  | bigM
  | o
deriving DecidableEq, Repr

/-- A numpy dtype, reduced to the two attributes `utils.py` consults:
`dtype.kind` and `dtype.itemsize` (in bytes). -/
structure Dtype where
  kind : NumpyKind
  itemsize : Nat
deriving DecidableEq, Repr

def int8 : Dtype := ⟨.i, 1⟩

def int16 : Dtype := ⟨.i, 2⟩

def float16 : Dtype := ⟨.f, 2⟩

def float32 : Dtype := ⟨.f, 4⟩

def uint8 : Dtype := ⟨.u, 1⟩

def uint16 : Dtype := ⟨.u, 2⟩

def complex64 : Dtype := ⟨.c, 8⟩

/-- The seven dtypes that appear as keys of the `_dtype_to_mode` dict in
`utils.py` (keys `f2, f4, i1, i2, u1, u2, c8`). -/
def supportedDtypes : List Dtype :=
  [int8, int16, float16, float32, uint8, uint16, complex64]

/-- Embedding of `mode_from_dtype` (`utils.py` lines 81-109): a lookup of
`dtype.kind + str(dtype.itemsize)` in the dict
`dict(f2=2, f4=2, i1=0, i2=1, u1=6, u2=6, c8=4)`, raising `ValueError`
for any other (kind, itemsize) combination. -/
def mode_from_dtype (dtype : Dtype) : Except String Int :=
  if dtype = float16 ∨ dtype = float32 then .ok 2
  else if dtype = int8 then .ok 0
  else if dtype = int16 then .ok 1
  else if dtype = uint8 ∨ dtype = uint16 then .ok 6
  else if dtype = complex64 then .ok 4
  else .error "dtype cannot be converted to an MRC file mode"

/-- Python `int()` truncation toward zero of a rational number, modelling
the `mode = int(mode)` conversion accepted by `dtype_from_mode` for any
integer-convertible numeric input. -/
def pyInt (q : ℚ) : Int := if q < 0 then ⌈q⌉ else ⌊q⌋

/-- Embedding of `dtype_from_mode` (`utils.py` lines 118-149): converts
its argument with `int()` and looks the result up in the dict
`{0: int8, 1: int16, 2: float32, 4: complex64, 6: uint16}`, raising
`ValueError` for any unlisted mode (including mode 3). -/
def dtype_from_mode (mode : ℚ) : Except String Dtype :=
  let m := pyInt mode
  if m = 0 then .ok int8
  else if m = 1 then .ok int16
  else if m = 2 then .ok float32
  else if m = 4 then .ok complex64
  else if m = 6 then .ok uint16
  else .error ("Unrecognised mode " ++ toString m)

/-- The round trip of the mode codec: convert a dtype to its MRC mode and
the mode back to the dtype stored in the file. -/
def roundTrip (dtype : Dtype) : Except String Dtype :=
  match mode_from_dtype dtype with
  | .ok m => dtype_from_mode (m : ℚ)
  | .error e => .error e

/-- The little-endian machine stamp constant (0x44, 0x44, 0, 0). -/
def LITTLE_ENDIAN_STAMP : List Nat := [0x44, 0x44, 0, 0]

/-- The big-endian machine stamp constant (0x11, 0x11, 0, 0). -/
def BIG_ENDIAN_STAMP : List Nat := [0x11, 0x11, 0, 0]

/-- Embedding of `machine_stamp_from_byte_order` (`utils.py` lines
155-179).  The native byte order `sys.byteorder` is environmental, so it
is passed as the explicit parameter `sysLittle`. -/
def machine_stamp_from_byte_order (sysLittle : Bool) (byte_order : String) :
    Except String (List Nat) :=
  let bo := if byte_order = "=" then (if sysLittle then "<" else ">") else byte_order
  if bo = "<" then .ok LITTLE_ENDIAN_STAMP
  else if bo = ">" then .ok BIG_ENDIAN_STAMP
  else .error ("Unrecognised byte order indicator " ++ byte_order)

/-- Embedding of `spacegroup_is_volume_stack` (`utils.py` lines
181-191): `401 <= ispg <= 630`. -/
def spacegroup_is_volume_stack (ispg : Int) : Bool :=
  401 ≤ ispg && ispg ≤ 630

/-- The MRC header fields consulted by the embedded operations, as a
record of exact values: the signed 32-bit integer fields become `Int`,
the float fields become `ℚ`, the 4-byte `map` magic and `machst` stamp
become byte lists, and the ten label slots are reduced to whether each
contains text. -/
structure MrcHeader where
  nx : Int
  ny : Int
  nz : Int
  mx : Int
  my : Int
  mz : Int
  mode : Int
  ispg : Int
  nlabl : Int
  mapc : Int
  mapr : Int
  maps : Int
  cellaX : ℚ
  cellaY : ℚ
  cellaZ : ℚ
  dmin : ℚ
  dmax : ℚ
  dmean : ℚ
  rms : ℚ
  nversion : Int
  nsymbt : Int
  exttypRecognized : Bool
  mapId : List Nat
  machst : List Nat
  labelIsText : List Bool

/-- Embedding of `data_shape_from_header` (`utils.py` lines 53-76).  The
tuple result becomes a list; `nz // mz` is numpy floor division of the
int32 header fields. -/
def data_shape_from_header (header : MrcHeader) : List Int :=
  if spacegroup_is_volume_stack header.ispg then
    [npFloorDiv header.nz header.mz, header.mz, header.ny, header.nx]
  else if header.ispg = IMAGE_STACK_SPACEGROUP ∧ header.nz = 1 then
    [header.ny, header.nx]
  else
    [header.nz, header.ny, header.nx]

/-- Shape resolution as the specification words it (section 4.3, for
comparison with `data_shape_from_header`): when `ispg` flags a volume
stack and `mz = 0`, it must fail with `InvalidSamplingRate` rather than
divide by zero. -/
def data_shape_from_header_specModel (header : MrcHeader) :
    Except String (List Int) :=
  if spacegroup_is_volume_stack header.ispg then
    if header.mz = 0 then .error "InvalidSamplingRate"
    else .ok [npFloorDiv header.nz header.mz, header.mz, header.ny, header.nx]
  else if header.ispg = IMAGE_STACK_SPACEGROUP ∧ header.nz = 1 then
    .ok [header.ny, header.nx]
  else
    .ok [header.nz, header.ny, header.nx]

/-- The 4-byte map magic constant, the ASCII bytes of the literal
required in the `map` field of a valid header. -/
def MAP_ID : List Nat := [0x4D, 0x41, 0x50, 0x20]

/-- A fully well-formed concrete header for a 2 x 3 x 4 float32 volume,
used as the base point of concrete evaluations. -/
def sampleHeader : MrcHeader where
  nx := 4
  ny := 3
  nz := 2
  mx := 4
  my := 3
  mz := 2
  mode := 2
  ispg := 1
  nlabl := 1
  mapc := 1
  mapr := 2
  maps := 3
  cellaX := 1
  cellaY := 1
  cellaZ := 1
  dmin := 0
  dmax := 23
  dmean := 12
  rms := 0
  nversion := 20140
  nsymbt := 0
  exttypRecognized := true
  mapId := MAP_ID
  machst := LITTLE_ENDIAN_STAMP
  labelIsText := [true, false, false, false, false, false, false, false, false, false]

/-- A header declaring a volume stack of three 2-section volumes. -/
def volumeStackHeader : MrcHeader :=
  { sampleHeader with ispg := 401, nz := 6, mz := 2 }

/-- A header declaring a single 2D image via the reserved image-stack
space group. -/
def imageStackHeader : MrcHeader :=
  { sampleHeader with ispg := 0, nz := 1 }

/-- A volume-stack header whose section count 7 is not divisible by its
volume depth 2. -/
def raggedVolumeStackHeader : MrcHeader :=
  { sampleHeader with ispg := 401, nz := 7, mz := 2 }

/-- A volume-stack header with a zero sampling rate along z. -/
def mzZeroHeader : MrcHeader :=
  { sampleHeader with ispg := 401, nz := 6, mz := 0 }

/-- Tags naming the individual validation checks, in the fixed order the
specification gives for the validation battery. -/
inductive CheckTag
  | mapMagic
  | machineStamp
  | modeCheck
  | dataTooSmall
  | dataTooLarge
  | mxNegative
  | myNegative
  | mzNegative
  | ispgNegative
  | nlablNegative
  | cellaXNegative
  | cellaYNegative
  | cellaZNegative
  | axisMapping
  | volumeStackDims
  | labelCheck
  | formatVersion
  | extendedHeader
  | statMin
  | statMax
  | statMean
  | statRms
deriving DecidableEq, Repr

/-- Modelled from the spec: the validation entry point (the `validate`
function exercised by `src/tests/test_validation.py` but not itself under
`src/`) operates on a fully opened file: the parsed header, the byte
order determined at open time, the actual byte length of the data block
on disk, and the exact statistics the StatisticsEngine computed from the
data array. -/
structure MrcState where
  header : MrcHeader
  byteOrderLittle : Bool
  dataBytes : Int
  statMin : ℚ
  statMax : ℚ
  statMean : ℚ
  statRms : ℚ

/-- Modelled from the spec: check 1, the `map` magic bytes must equal the
required literal. -/
def checkMapMagic (s : MrcState) : Option String :=
  if s.header.mapId = MAP_ID then none
  else some "Map ID string not found - not an MRC file, or file is corrupt"

/-- The machine stamp implied by a byte order. -/
def expectedStamp (little : Bool) : List Nat :=
  if little then LITTLE_ENDIAN_STAMP else BIG_ENDIAN_STAMP

/-- Modelled from the spec: check 2, `machst` must match the machine
stamp implied by the declared byte order. -/
def checkMachineStamp (s : MrcState) : Option String :=
  if s.header.machst = expectedStamp s.byteOrderLittle then none
  else some "Unrecognised machine stamp"

/-- Whether the mode codec recognises a header mode value. -/
def modeRecognized (mode : Int) : Bool :=
  match dtype_from_mode (mode : ℚ) with
  | .ok _ => true
  | .error _ => false

/-- Modelled from the spec: check 3, `mode` must be recognised by the
mode codec. -/
def checkDataMode (s : MrcState) : Option String :=
  if modeRecognized s.header.mode then none
  else some ("Unrecognised mode " ++ toString s.header.mode)

/-- The data block byte length declared by the header: element width of
the mode times the product of the derived shape.  Undefined when the
mode is unrecognised, in which case the size checks are skipped. -/
def expectedDataBytes (s : MrcState) : Option Int :=
  match dtype_from_mode (s.header.mode : ℚ) with
  | .ok d => some ((d.itemsize : Int) * (data_shape_from_header s.header).prod)
  | .error _ => none

/-- Modelled from the spec: check 4a, the data block on disk must not be
smaller than the header declares. -/
def checkDataTooSmall (s : MrcState) : Option String :=
  match expectedDataBytes s with
  | some e => if s.dataBytes < e then some "Data block is too small" else none
  | none => none

/-- Modelled from the spec: check 4b, a data block larger than declared
is trailing garbage, reported separately. -/
def checkDataTooLarge (s : MrcState) : Option String :=
  match expectedDataBytes s with
  | some e => if e < s.dataBytes then some "Data block is larger than expected" else none
  | none => none

/-- Modelled from the spec: checks 5-7, each named integer header field
must individually be non-negative. -/
def checkFieldNonNegative (name : String) (value : Int) : Option String :=
  if value < 0 then some ("Header field " ++ name ++ " is negative") else none

/-- Modelled from the spec: check 8, each cell dimension must
individually be non-negative. -/
def checkCellaNonNegative (axis : String) (value : ℚ) : Option String :=
  if value < 0 then some ("Cell dimension " ++ axis ++ " is negative") else none

/-- Modelled from the spec: check 9, `mapc, mapr, maps` must form a
permutation of 1, 2, 3; the failure message reports the triple in
`maps, mapc, mapr` order as found. -/
def checkAxisMapping (s : MrcState) : Option String :=
  let l : List Int := [s.header.mapc, s.header.mapr, s.header.maps]
  if l.contains 1 && l.contains 2 && l.contains 3 then none
  else some ("Invalid axis mapping: found [" ++ toString s.header.maps ++ ", "
      ++ toString s.header.mapc ++ ", " ++ toString s.header.mapr ++ "]")

/-- Modelled from the spec: check 10, when `ispg` flags a volume stack,
`nz` must be divisible by `mz`; the message reports both raw values. -/
def checkVolumeStackDims (s : MrcState) : Option String :=
  if spacegroup_is_volume_stack s.header.ispg ∧ npMod s.header.nz s.header.mz ≠ 0 then
    some ("Error in dimensions for volume stack: nz should be divisible by mz. Found nz = "
      ++ toString s.header.nz ++ ", mz = " ++ toString s.header.mz)
  else none

/-- Whether no empty label slot is followed by a text-containing one. -/
def noGapLabels : List Bool → Bool
  | [] => true
  | b :: rest => if b then noGapLabels rest else rest.all (fun x => !x)

/-- Modelled from the spec: check 11, `nlabl` must equal the number of
text-containing labels and empty labels must not be interleaved with
text-containing ones; one combined message when either sub-condition is
violated. -/
def checkLabels (s : MrcState) : Option String :=
  let textCount : Int := ((s.header.labelIsText.filter (fun b => b)).length : Int)
  if s.header.nlabl = textCount ∧ noGapLabels s.header.labelIsText then none
  else some ("Error in header labels: nlabl is " ++ toString s.header.nlabl
      ++ " but " ++ toString textCount ++ " labels contain text, or empty labels "
      ++ "appear between text-containing labels")

/-- Modelled from the spec: check 12, the header must declare the fixed
expected format version. -/
def checkFormatVersion (s : MrcState) : Option String :=
  if s.header.nversion = 20140 then none
  else some ("File does not declare MRC format version 20140: nversion = "
      ++ toString s.header.nversion)

/-- Modelled from the spec: check 13, a present extended header
(`nsymbt > 0`) must carry a recognised type tag. -/
def checkExtendedHeader (s : MrcState) : Option String :=
  if 0 < s.header.nsymbt ∧ ¬ s.header.exttypRecognized then
    some "Extended header type is undefined or unrecognised"
  else none

/-- Modelled from the spec: check 14 for the minimum.  The undetermined
sentinel convention is pinned by the tests in
`src/tests/test_validation.py`: `dmin` and `dmax` are undetermined
exactly when `dmax < dmin` (both then structurally skipped); otherwise
the declared minimum must exactly equal the computed one. -/
def checkStatMin (s : MrcState) : Option String :=
  if s.header.dmax < s.header.dmin then none
  else if s.header.dmin = s.statMin then none
  else some ("Error in data statistics: minimum is " ++ toString s.statMin
      ++ " but the value in the header is " ++ toString s.header.dmin)

/-- Modelled from the spec: check 14 for the maximum, skipped under the
same `dmax < dmin` undetermined convention. -/
def checkStatMax (s : MrcState) : Option String :=
  if s.header.dmax < s.header.dmin then none
  else if s.header.dmax = s.statMax then none
  else some ("Error in data statistics: maximum is " ++ toString s.statMax
      ++ " but the value in the header is " ++ toString s.header.dmax)

/-- Modelled from the spec: check 14 for the mean, pinned by the tests:
`dmean` is undetermined exactly when it is less than the smaller of
`dmin` and `dmax`. -/
def checkStatMean (s : MrcState) : Option String :=
  if s.header.dmean < min s.header.dmin s.header.dmax then none
  else if s.header.dmean = s.statMean then none
  else some ("Error in data statistics: mean is " ++ toString s.statMean
      ++ " but the value in the header is " ++ toString s.header.dmean)

/-- Modelled from the spec: check 15, the RMS deviation, pinned by the
tests: `rms` is undetermined exactly when negative. -/
def checkStatRms (s : MrcState) : Option String :=
  if s.header.rms < 0 then none
  else if s.header.rms = s.statRms then none
  else some ("Error in data statistics: RMS deviation is " ++ toString s.statRms
      ++ " but the value in the header is " ++ toString s.header.rms)

/-- The outcome of one validation check: its identity, whether a
violation additionally raises a recoverable RuntimeWarning, and the
diagnostic line (if any) it emits. -/
structure CheckResult where
  tag : CheckTag
  warns : Bool
  line : Option String

/-- Modelled from the spec: the ordered battery of validation checks.
The dual-signalled (warning-raising) checks are the map magic, machine
stamp, mode and format version conditions named by the spec, plus the
two data block size conditions, whose warnings the tests
(`test_file_too_small`, `test_file_too_large`) assert as well. -/
def allChecks (s : MrcState) : List CheckResult :=
  [ ⟨.mapMagic, true, checkMapMagic s⟩,
    ⟨.machineStamp, true, checkMachineStamp s⟩,
    ⟨.modeCheck, true, checkDataMode s⟩,
    ⟨.dataTooSmall, true, checkDataTooSmall s⟩,
    ⟨.dataTooLarge, true, checkDataTooLarge s⟩,
    ⟨.mxNegative, false, checkFieldNonNegative "mx" s.header.mx⟩,
    ⟨.myNegative, false, checkFieldNonNegative "my" s.header.my⟩,
    ⟨.mzNegative, false, checkFieldNonNegative "mz" s.header.mz⟩,
    ⟨.ispgNegative, false, checkFieldNonNegative "ispg" s.header.ispg⟩,
    ⟨.nlablNegative, false, checkFieldNonNegative "nlabl" s.header.nlabl⟩,
    ⟨.cellaXNegative, false, checkCellaNonNegative "x" s.header.cellaX⟩,
    ⟨.cellaYNegative, false, checkCellaNonNegative "y" s.header.cellaY⟩,
    ⟨.cellaZNegative, false, checkCellaNonNegative "z" s.header.cellaZ⟩,
    ⟨.axisMapping, false, checkAxisMapping s⟩,
    ⟨.volumeStackDims, false, checkVolumeStackDims s⟩,
    ⟨.labelCheck, false, checkLabels s⟩,
    ⟨.formatVersion, true, checkFormatVersion s⟩,
    ⟨.extendedHeader, false, checkExtendedHeader s⟩,
    ⟨.statMin, false, checkStatMin s⟩,
    ⟨.statMax, false, checkStatMax s⟩,
    ⟨.statMean, false, checkStatMean s⟩,
    ⟨.statRms, false, checkStatRms s⟩ ]

/-- The diagnostic lines the validation entry point prints, one per
violated rule, in the fixed battery order. -/
def validateLines (s : MrcState) : List String :=
  (allChecks s).filterMap (fun c => c.line)

/-- The boolean the validation entry point returns: every check passed. -/
def validateResult (s : MrcState) : Bool :=
  (allChecks s).all (fun c => c.line.isNone)

/-- The recoverable warnings raised during validation, identified by the
check that raised each: one per violated dual-signalled condition. -/
def validateWarnings (s : MrcState) : List CheckTag :=
  ((allChecks s).filter (fun c => c.warns && c.line.isSome)).map (fun c => c.tag)

/-- A state after the scenario of `test_incorrect_dmin`: a 2 x 3 x 5
float32 volume whose true minimum is -10, with every header field
consistent except `dmin`, overwritten to -11, one below the true
minimum. -/
def dminBelowMinState : MrcState where
  header := { sampleHeader with
    nx := 5, mx := 5, dmin := -11, dmax := 19, dmean := 5 }
  byteOrderLittle := true
  dataBytes := 120
  statMin := -10
  statMax := 19
  statMean := 5
  statRms := 0

/-- A fully consistent state for `sampleHeader`: a 2 x 3 x 4 float32
volume of 96 data bytes whose statistics match the header exactly. -/
def goodState : MrcState where
  header := sampleHeader
  byteOrderLittle := true
  dataBytes := 96
  statMin := 0
  statMax := 23
  statMean := 12
  statRms := 0

/-- The good state with only the format version declaration broken. -/
def badVersionState : MrcState :=
  { goodState with header := { sampleHeader with nversion := 20139 } }

/-- The good state with `dmin` and `dmax` both set to the undetermined
sentinel configuration `dmax < dmin`. -/
def undeterminedStatState : MrcState :=
  { goodState with header := { sampleHeader with dmin := 31, dmax := 30 } }

/-- The good state with `dmean` set below both `dmin` and `dmax`,
marking the mean undetermined. -/
def undeterminedMeanState : MrcState :=
  { goodState with header := { sampleHeader with dmean := -1 } }

end Mrcfile

deriving instance DecidableEq for Except

namespace Mrcfile

/-- Helper: the diagnostic lines collected from a battery are empty
exactly when every check in the battery produced no line. -/
theorem filterMapLine_nil_iff (l : List CheckResult) :
    l.filterMap (fun c => c.line) = [] ↔ (l.all fun c => c.line.isNone) = true := by
  induction l with
  | nil => simp
  | cons c rest ih =>
    cases hc : c.line <;> simp [List.filterMap_cons, hc, ih]

/-- Helper: the number of diagnostic lines equals the number of checks
that produced one. -/
theorem length_filterMapLine (l : List CheckResult) :
    (l.filterMap (fun c => c.line)).length = l.countP (fun c => c.line.isSome) := by
  induction l with
  | nil => simp
  | cons c rest ih =>
    cases hc : c.line <;> simp [List.filterMap_cons, List.countP_cons, hc, ih]

/-- Helper: the warning list in explicit form, one chunk per
warning-raising check. -/
theorem validateWarnings_explicit (s : MrcState) :
    validateWarnings s =
      (if s.header.mapId = MAP_ID then [] else [CheckTag.mapMagic]) ++
      (if s.header.machst = expectedStamp s.byteOrderLittle then [] else [CheckTag.machineStamp]) ++
      (if modeRecognized s.header.mode = true then [] else [CheckTag.modeCheck]) ++
      (if (checkDataTooSmall s).isSome = true then [CheckTag.dataTooSmall] else []) ++
      (if (checkDataTooLarge s).isSome = true then [CheckTag.dataTooLarge] else []) ++
      (if s.header.nversion = 20140 then [] else [CheckTag.formatVersion]) := by
  by_cases h1 : s.header.mapId = MAP_ID <;>
  by_cases h2 : s.header.machst = expectedStamp s.byteOrderLittle <;>
  by_cases h3 : modeRecognized s.header.mode = true <;>
  rcases h4 : checkDataTooSmall s with _ | m4 <;>
  rcases h5 : checkDataTooLarge s with _ | m5 <;>
  by_cases h6 : s.header.nversion = 20140 <;>
  simp [validateWarnings, allChecks, checkMapMagic, checkMachineStamp, checkDataMode,
    checkFormatVersion, h1, h2, h3, h4, h5, h6, List.filter_cons]

/-- C1: for every header the resolved data shape follows exactly three
cases: `ispg` in 401-630 gives the volume-stack shape
(nz // mz, mz, ny, nx); `ispg` equal to the reserved image-stack space
group with nz = 1 gives the 2D shape (ny, nx); every other header gives
(nz, ny, nx). -/
theorem c1_data_shape_three_cases (h : MrcHeader) :
    (401 ≤ h.ispg ∧ h.ispg ≤ 630 →
      data_shape_from_header h = [npFloorDiv h.nz h.mz, h.mz, h.ny, h.nx]) ∧
    (h.ispg = IMAGE_STACK_SPACEGROUP ∧ h.nz = 1 →
      data_shape_from_header h = [h.ny, h.nx]) ∧
    (¬ (401 ≤ h.ispg ∧ h.ispg ≤ 630) → ¬ (h.ispg = IMAGE_STACK_SPACEGROUP ∧ h.nz = 1) →
      data_shape_from_header h = [h.nz, h.ny, h.nx]) := by
  refine ⟨fun hc => ?_, fun hc => ?_, fun hv hi => ?_⟩
  · have hb : spacegroup_is_volume_stack h.ispg = true := by
      unfold spacegroup_is_volume_stack
      simp [hc.1, hc.2]
    unfold data_shape_from_header
    rw [if_pos hb]
  · have h0 : h.ispg = 0 := hc.1.trans rfl
    have hb : spacegroup_is_volume_stack h.ispg = false := by
      unfold spacegroup_is_volume_stack
      simp [h0]
    unfold data_shape_from_header
    rw [if_neg (by simp [hb]), if_pos hc]
  · have hb : spacegroup_is_volume_stack h.ispg = false := by
      unfold spacegroup_is_volume_stack
      rcases not_and_or.mp hv with hx | hx <;> simp [hx]
    unfold data_shape_from_header
    rw [if_neg (by simp [hb]), if_neg hi]

/-- C1 witness: the three cases evaluated at concrete headers. -/
theorem c1_witness :
    data_shape_from_header volumeStackHeader = [3, 2, 3, 4] ∧
    data_shape_from_header imageStackHeader = [3, 4] ∧
    data_shape_from_header sampleHeader = [2, 3, 4] :=
  ⟨((c1_data_shape_three_cases volumeStackHeader).1 ⟨by decide, by decide⟩).trans (by decide),
   ((c1_data_shape_three_cases imageStackHeader).2.1 ⟨by decide, by decide⟩).trans (by decide),
   ((c1_data_shape_three_cases sampleHeader).2.2 (by decide) (by decide)).trans (by decide)⟩

/-- C2: for every supported element dtype, converting it to a mode and
back yields a dtype of the same kind widened to the mode width:
the identity on int8, int16, float32, uint16 and complex64, widening
float16 to float32 and uint8 to uint16. -/
theorem c2_mode_type_roundtrip :
    roundTrip int8 = .ok int8 ∧ roundTrip int16 = .ok int16 ∧
    roundTrip float32 = .ok float32 ∧ roundTrip uint16 = .ok uint16 ∧
    roundTrip complex64 = .ok complex64 ∧
    roundTrip float16 = .ok float32 ∧ roundTrip uint8 = .ok uint16 ∧
    (∀ d, d ∈ supportedDtypes →
      ∃ e, roundTrip d = .ok e ∧ e.kind = d.kind ∧ d.itemsize ≤ e.itemsize) := by
  refine ⟨by decide, by decide, by decide, by decide, by decide, by decide, by decide, ?_⟩
  intro d hd
  simp only [supportedDtypes, List.mem_cons, List.not_mem_nil, or_false] at hd
  rcases hd with h | h | h | h | h | h | h <;> subst h
  exacts [⟨int8, by decide⟩, ⟨int16, by decide⟩, ⟨float32, by decide⟩, ⟨float32, by decide⟩,
    ⟨uint16, by decide⟩, ⟨uint16, by decide⟩, ⟨complex64, by decide⟩]

/-- C2 witness: the kind-preserving widening round trip at float16. -/
theorem c2_witness :
    ∃ e, roundTrip float16 = .ok e ∧ e.kind = float16.kind ∧ float16.itemsize ≤ e.itemsize :=
  c2_mode_type_roundtrip.2.2.2.2.2.2.2 float16 (by decide)

end Mrcfile

namespace Mrcfile

/-- C6: `mode_from_dtype` returns 0 for signed 8-bit, 1 for signed
16-bit, 2 for both 16- and 32-bit floats, 4 for 64-bit complex and 6 for
both unsigned 8- and 16-bit integers, and fails with a ValueError for
every other (kind, byte-width) combination. -/
theorem c6_mode_from_dtype_table :
    mode_from_dtype int8 = .ok 0 ∧ mode_from_dtype int16 = .ok 1 ∧
    mode_from_dtype float16 = .ok 2 ∧ mode_from_dtype float32 = .ok 2 ∧
    mode_from_dtype complex64 = .ok 4 ∧
    mode_from_dtype uint8 = .ok 6 ∧ mode_from_dtype uint16 = .ok 6 ∧
    (∀ d : Dtype, d ∉ supportedDtypes →
      mode_from_dtype d = .error "dtype cannot be converted to an MRC file mode") := by
  refine ⟨by decide, by decide, by decide, by decide, by decide, by decide, by decide, ?_⟩
  intro d hd
  simp only [supportedDtypes, List.mem_cons, List.not_mem_nil, or_false, not_or] at hd
  obtain ⟨n1, n2, n3, n4, n5, n6, n7⟩ := hd
  simp [mode_from_dtype, n1, n2, n3, n4, n5, n6, n7]

/-- C6 witness: 64-bit floats are rejected. -/
theorem c6_witness :
    mode_from_dtype ⟨NumpyKind.f, 8⟩ = .error "dtype cannot be converted to an MRC file mode" :=
  c6_mode_from_dtype_table.2.2.2.2.2.2.2 ⟨NumpyKind.f, 8⟩ (by decide)

/-- C7: `dtype_from_mode` succeeds exactly for modes 0, 1, 2, 4 and 6,
returning int8, int16, float32, complex64 and uint16 respectively; mode
3 and every other integer value fail with a ValueError; the mode
argument is accepted as any integer-convertible numeric input (the
lookup happens after truncation to an integer). -/
theorem c7_dtype_from_mode_table :
    dtype_from_mode ((0 : Int) : ℚ) = .ok int8 ∧
    dtype_from_mode ((1 : Int) : ℚ) = .ok int16 ∧
    dtype_from_mode ((2 : Int) : ℚ) = .ok float32 ∧
    dtype_from_mode ((4 : Int) : ℚ) = .ok complex64 ∧
    dtype_from_mode ((6 : Int) : ℚ) = .ok uint16 ∧
    (∀ q : ℚ, dtype_from_mode q = dtype_from_mode ((pyInt q : Int) : ℚ)) ∧
    (∀ m : Int, m ≠ 0 → m ≠ 1 → m ≠ 2 → m ≠ 4 → m ≠ 6 →
      dtype_from_mode ((m : Int) : ℚ) = .error ("Unrecognised mode " ++ toString m)) := by
  refine ⟨by decide, by decide, by decide, by decide, by decide, fun q => ?_, ?_⟩
  · have hp : pyInt ((pyInt q : Int) : ℚ) = pyInt q := by
      unfold pyInt
      split_ifs <;> simp_all
    simp [dtype_from_mode, hp]
  · intro m h0 h1 h2 h4 h6
    have hp : pyInt ((m : Int) : ℚ) = m := by simp [pyInt]
    simp [dtype_from_mode, hp, h0, h1, h2, h4, h6]

/-- C7 witness: mode 3 fails, and a non-integer input goes through
integer truncation. -/
theorem c7_witness :
    dtype_from_mode ((3 : Int) : ℚ) = .error "Unrecognised mode 3" ∧
    dtype_from_mode (7 : ℚ) = dtype_from_mode ((pyInt 7 : Int) : ℚ) :=
  ⟨(c7_dtype_from_mode_table.2.2.2.2.2.2 3 (by decide) (by decide) (by decide) (by decide)
      (by decide)).trans (by decide),
   c7_dtype_from_mode_table.2.2.2.2.2.1 7⟩

/-- C8: `machine_stamp_from_byte_order` returns the fixed stamp
(0x44, 0x44, 0, 0) for the little-endian indicator, (0x11, 0x11, 0, 0)
for the big-endian indicator, one of those two constants (chosen by the
native byte order) for the native indicator, and fails with a ValueError
for every other byte-order indicator. -/
theorem c8_machine_stamp (sysLittle : Bool) :
    machine_stamp_from_byte_order sysLittle "<" = .ok [0x44, 0x44, 0, 0] ∧
    machine_stamp_from_byte_order sysLittle ">" = .ok [0x11, 0x11, 0, 0] ∧
    (machine_stamp_from_byte_order sysLittle "=" = .ok [0x44, 0x44, 0, 0] ∨
     machine_stamp_from_byte_order sysLittle "=" = .ok [0x11, 0x11, 0, 0]) ∧
    machine_stamp_from_byte_order sysLittle "=" =
      machine_stamp_from_byte_order sysLittle (if sysLittle then "<" else ">") ∧
    (∀ bo : String, bo ≠ "<" → bo ≠ ">" → bo ≠ "=" →
      machine_stamp_from_byte_order sysLittle bo =
        .error ("Unrecognised byte order indicator " ++ bo)) := by
  cases sysLittle
  · refine ⟨rfl, rfl, Or.inr rfl, rfl, ?_⟩
    intro bo h1 h2 h3
    simp [machine_stamp_from_byte_order, h1, h2, h3]
  · refine ⟨rfl, rfl, Or.inl rfl, rfl, ?_⟩
    intro bo h1 h2 h3
    simp [machine_stamp_from_byte_order, h1, h2, h3]

/-- C8 witness: an unknown indicator is rejected. -/
theorem c8_witness :
    machine_stamp_from_byte_order true "|" = .error "Unrecognised byte order indicator |" :=
  ((c8_machine_stamp true).2.2.2.2 "|" (by decide) (by decide) (by decide)).trans (by decide)

/-- C5 counterexample: at a volume-stack header with mz = 0 the code
does not fail: numpy floor division by zero yields 0, so it returns the
shape (0, 0, ny, nx), while the shape resolver worded as in the spec
fails with InvalidSamplingRate. -/
theorem c5_counterexample :
    data_shape_from_header mzZeroHeader = [0, 0, 3, 4] ∧
    data_shape_from_header_specModel mzZeroHeader = .error "InvalidSamplingRate" := by
  constructor <;> decide

/-- C5 (amended): for every header with ispg in 401-630 and mz = 0,
`data_shape_from_header` does not raise an InvalidSamplingRate error; the
numpy floor division by zero yields 0 and the resolved shape is
(0, 0, ny, nx). -/
theorem c5_mz_zero_shape (h : MrcHeader) (hs1 : 401 ≤ h.ispg) (hs2 : h.ispg ≤ 630)
    (hmz : h.mz = 0) :
    data_shape_from_header h = [0, 0, h.ny, h.nx] := by
  have hb : spacegroup_is_volume_stack h.ispg = true := by
    unfold spacegroup_is_volume_stack
    simp [hs1, hs2]
  unfold data_shape_from_header
  rw [if_pos hb, hmz]
  simp [npFloorDiv]

/-- C5 witness: the amended behaviour at a concrete header. -/
theorem c5_witness :
    data_shape_from_header mzZeroHeader = [0, 0, mzZeroHeader.ny, mzZeroHeader.nx] :=
  c5_mz_zero_shape mzZeroHeader (by decide) (by decide) (by decide)

/-- C10: for every volume-stack header with mz > 0 and nz not divisible
by mz, `data_shape_from_header` does not fail: it returns
(nz // mz, mz, ny, nx) by floor division, the product of the shape
entries equals (nz - nz % mz) * ny * nx, and that product is strictly
less than nz * ny * nx when ny and nx are positive. -/
theorem c10_ragged_volume_stack (h : MrcHeader) (hs1 : 401 ≤ h.ispg) (hs2 : h.ispg ≤ 630)
    (hmz : 0 < h.mz) (hnd : npMod h.nz h.mz ≠ 0) (hny : 0 < h.ny) (hnx : 0 < h.nx) :
    data_shape_from_header h = [npFloorDiv h.nz h.mz, h.mz, h.ny, h.nx] ∧
    (data_shape_from_header h).prod = (h.nz - npMod h.nz h.mz) * h.ny * h.nx ∧
    (data_shape_from_header h).prod < h.nz * h.ny * h.nx := by
  have hb : spacegroup_is_volume_stack h.ispg = true := by
    unfold spacegroup_is_volume_stack
    simp [hs1, hs2]
  have hshape : data_shape_from_header h = [npFloorDiv h.nz h.mz, h.mz, h.ny, h.nx] := by
    unfold data_shape_from_header
    rw [if_pos hb]
  have hmzne : h.mz ≠ 0 := by omega
  have key : npFloorDiv h.nz h.mz * h.mz = h.nz - npMod h.nz h.mz := by
    simp only [npFloorDiv, npMod, if_neg hmzne]
    linear_combination Int.fdiv_add_fmod h.nz h.mz
  have hmodpos : 0 < npMod h.nz h.mz := by
    have h0 : 0 ≤ npMod h.nz h.mz := by
      simp only [npMod, if_neg hmzne]
      rw [Int.fmod_eq_emod _ (le_of_lt hmz)]
      exact Int.emod_nonneg _ hmzne
    omega
  have hprod : (data_shape_from_header h).prod = (h.nz - npMod h.nz h.mz) * h.ny * h.nx := by
    rw [hshape]
    simp only [List.prod_cons, List.prod_nil, mul_one]
    linear_combination (h.ny * h.nx) * key
  refine ⟨hshape, hprod, ?_⟩
  rw [hprod]
  have hsub : h.nz - npMod h.nz h.mz < h.nz := by omega
  have hpos : (0 : Int) < h.ny * h.nx := mul_pos hny hnx
  calc (h.nz - npMod h.nz h.mz) * h.ny * h.nx
      = (h.nz - npMod h.nz h.mz) * (h.ny * h.nx) := by ring
    _ < h.nz * (h.ny * h.nx) := mul_lt_mul_of_pos_right hsub hpos
    _ = h.nz * h.ny * h.nx := by ring

/-- C10 witness: the ragged volume stack 7 sections deep with 2-section
volumes drops the trailing section from the derived shape. -/
theorem c10_witness :
    data_shape_from_header raggedVolumeStackHeader =
      [npFloorDiv raggedVolumeStackHeader.nz raggedVolumeStackHeader.mz,
       raggedVolumeStackHeader.mz, raggedVolumeStackHeader.ny, raggedVolumeStackHeader.nx] ∧
    (data_shape_from_header raggedVolumeStackHeader).prod =
      (raggedVolumeStackHeader.nz -
        npMod raggedVolumeStackHeader.nz raggedVolumeStackHeader.mz) *
        raggedVolumeStackHeader.ny * raggedVolumeStackHeader.nx ∧
    (data_shape_from_header raggedVolumeStackHeader).prod <
      raggedVolumeStackHeader.nz * raggedVolumeStackHeader.ny * raggedVolumeStackHeader.nx :=
  c10_ragged_volume_stack raggedVolumeStackHeader (by decide) (by decide) (by decide)
    (by decide) (by decide) (by decide)

end Mrcfile

namespace Mrcfile

/-- C3: the validation entry point returns false exactly when at least
one diagnostic line was emitted, its output is empty exactly when it
returns true, and a file with many simultaneous violations still gets a
boolean with one line per independently violated rule. -/
theorem c3_result_iff_no_output (s : MrcState) :
    (validateResult s = true ↔ validateLines s = []) ∧
    (validateResult s = false ↔ validateLines s ≠ []) ∧
    (validateLines s).length = (allChecks s).countP (fun c => c.line.isSome) := by
  have h1 := filterMapLine_nil_iff (allChecks s)
  have h2 := length_filterMapLine (allChecks s)
  unfold validateResult validateLines
  refine ⟨h1.symm, ?_, h2⟩
  rw [Bool.eq_false_iff]
  exact not_congr h1.symm

/-- C9: each of the dual-signalled conditions (map magic string, machine
stamp, mode recognition, format version) raises exactly one recoverable
warning when violated and none otherwise - one signal per violated
condition, not per run - and each violation also emits its printed
diagnostic line, observable independently of the warnings. -/
theorem c9_dual_signals (s : MrcState) :
    (validateWarnings s).Nodup ∧
    ((validateWarnings s).count CheckTag.mapMagic =
      if s.header.mapId = MAP_ID then 0 else 1) ∧
    ((validateWarnings s).count CheckTag.machineStamp =
      if s.header.machst = expectedStamp s.byteOrderLittle then 0 else 1) ∧
    ((validateWarnings s).count CheckTag.modeCheck =
      if modeRecognized s.header.mode = true then 0 else 1) ∧
    ((validateWarnings s).count CheckTag.formatVersion =
      if s.header.nversion = 20140 then 0 else 1) ∧
    (¬ s.header.mapId = MAP_ID →
      ∃ msg, checkMapMagic s = some msg ∧ msg ∈ validateLines s) ∧
    (¬ s.header.machst = expectedStamp s.byteOrderLittle →
      ∃ msg, checkMachineStamp s = some msg ∧ msg ∈ validateLines s) ∧
    (¬ modeRecognized s.header.mode = true →
      ∃ msg, checkDataMode s = some msg ∧ msg ∈ validateLines s) ∧
    (¬ s.header.nversion = 20140 →
      ∃ msg, checkFormatVersion s = some msg ∧ msg ∈ validateLines s) := by
  have hsub : List.Sublist (validateWarnings s) ((allChecks s).map (fun c => c.tag)) := by
    unfold validateWarnings
    exact (List.filter_sublist (allChecks s)).map (fun c => c.tag)
  have htags : (allChecks s).map (fun c => c.tag) =
      [CheckTag.mapMagic, CheckTag.machineStamp, CheckTag.modeCheck, CheckTag.dataTooSmall,
       CheckTag.dataTooLarge, CheckTag.mxNegative, CheckTag.myNegative, CheckTag.mzNegative,
       CheckTag.ispgNegative, CheckTag.nlablNegative, CheckTag.cellaXNegative,
       CheckTag.cellaYNegative, CheckTag.cellaZNegative, CheckTag.axisMapping,
       CheckTag.volumeStackDims, CheckTag.labelCheck, CheckTag.formatVersion,
       CheckTag.extendedHeader, CheckTag.statMin, CheckTag.statMax, CheckTag.statMean,
       CheckTag.statRms] := rfl
  have hnodup : (validateWarnings s).Nodup := by
    rw [htags] at hsub
    exact List.Nodup.sublist hsub (by decide)
  have hexp := validateWarnings_explicit s
  refine ⟨hnodup, ?_, ?_, ?_, ?_, ?_, ?_, ?_, ?_⟩
  · rw [hexp]
    split_ifs <;> decide
  · rw [hexp]
    split_ifs <;> decide
  · rw [hexp]
    split_ifs <;> decide
  · rw [hexp]
    split_ifs <;> decide
  · intro hviol
    refine ⟨"Map ID string not found - not an MRC file, or file is corrupt", ?_, ?_⟩
    · unfold checkMapMagic
      rw [if_neg hviol]
    · unfold validateLines
      refine List.mem_filterMap.mpr ⟨⟨CheckTag.mapMagic, true, checkMapMagic s⟩, ?_, ?_⟩
      · simp [allChecks]
      · unfold checkMapMagic
        rw [if_neg hviol]
  · intro hviol
    refine ⟨"Unrecognised machine stamp", ?_, ?_⟩
    · unfold checkMachineStamp
      rw [if_neg hviol]
    · unfold validateLines
      refine List.mem_filterMap.mpr ⟨⟨CheckTag.machineStamp, true, checkMachineStamp s⟩, ?_, ?_⟩
      · simp [allChecks]
      · unfold checkMachineStamp
        rw [if_neg hviol]
  · intro hviol
    refine ⟨"Unrecognised mode " ++ toString s.header.mode, ?_, ?_⟩
    · unfold checkDataMode
      rw [if_neg hviol]
    · unfold validateLines
      refine List.mem_filterMap.mpr ⟨⟨CheckTag.modeCheck, true, checkDataMode s⟩, ?_, ?_⟩
      · simp [allChecks]
      · unfold checkDataMode
        rw [if_neg hviol]
  · intro hviol
    refine ⟨"File does not declare MRC format version 20140: nversion = "
        ++ toString s.header.nversion, ?_, ?_⟩
    · unfold checkFormatVersion
      rw [if_neg hviol]
    · unfold validateLines
      refine List.mem_filterMap.mpr ⟨⟨CheckTag.formatVersion, true, checkFormatVersion s⟩, ?_, ?_⟩
      · simp [allChecks]
      · unfold checkFormatVersion
        rw [if_neg hviol]

/-- C9 witness: a broken format version declaration yields a warning and
its diagnostic line. -/
theorem c9_witness :
    ∃ msg, checkFormatVersion badVersionState = some msg ∧
      msg ∈ validateLines badVersionState :=
  (c9_dual_signals badVersionState).2.2.2.2.2.2.2.2 (by decide)

/-- C4 counterexample: in the scenario of `test_incorrect_dmin`, a
header `dmin` of -11 lies below the true data minimum -10 yet the
minimum check is not exempted: validation emits the minimum diagnostic
line and returns false, refuting the claim that a `dmin` below the true
minimum is treated as the undetermined sentinel. -/
theorem c4_counterexample :
    dminBelowMinState.header.dmin < dminBelowMinState.statMin ∧
    checkStatMin dminBelowMinState =
      some "Error in data statistics: minimum is -10 but the value in the header is -11" ∧
    validateLines dminBelowMinState =
      ["Error in data statistics: minimum is -10 but the value in the header is -11"] ∧
    validateResult dminBelowMinState = false :=
  ⟨by decide, by decide, by decide, by decide⟩

/-- C4 (amended): `dmin` and `dmax` are treated as undetermined exactly
when `dmax < dmin`, in which case both the min and max checks are
structurally skipped; when `dmin <= dmax` the min and max checks fire
exactly on disagreement with the computed statistics (so a `dmin` merely
below the true minimum is still checked); the mean is undetermined
exactly when `dmean` is below the smaller of `dmin` and `dmax`, and is
otherwise checked independently. -/
theorem c4_undetermined_convention (s : MrcState) :
    (s.header.dmax < s.header.dmin → checkStatMin s = none ∧ checkStatMax s = none) ∧
    (s.header.dmin ≤ s.header.dmax →
      (checkStatMin s = none ↔ s.header.dmin = s.statMin)) ∧
    (s.header.dmin ≤ s.header.dmax →
      (checkStatMax s = none ↔ s.header.dmax = s.statMax)) ∧
    (s.header.dmean < min s.header.dmin s.header.dmax → checkStatMean s = none) ∧
    (min s.header.dmin s.header.dmax ≤ s.header.dmean →
      (checkStatMean s = none ↔ s.header.dmean = s.statMean)) := by
  unfold checkStatMin checkStatMax checkStatMean
  refine ⟨fun h => ⟨?_, ?_⟩, fun h => ?_, fun h => ?_, fun h => ?_, fun h => ?_⟩
  · rw [if_pos h]
  · rw [if_pos h]
  · rw [if_neg (not_lt.mpr h)]
    split_ifs with h2 <;> simp [h2]
  · rw [if_neg (not_lt.mpr h)]
    split_ifs with h2 <;> simp [h2]
  · rw [if_pos h]
  · rw [if_neg (not_lt.mpr h)]
    split_ifs with h2 <;> simp [h2]

/-- C4 witness: the undetermined and determined statistic cases at
concrete states. -/
theorem c4_witness :
    (checkStatMin undeterminedStatState = none ∧ checkStatMax undeterminedStatState = none) ∧
    (checkStatMin goodState = none ↔ goodState.header.dmin = goodState.statMin) ∧
    (checkStatMax goodState = none ↔ goodState.header.dmax = goodState.statMax) ∧
    checkStatMean undeterminedMeanState = none ∧
    (checkStatMean goodState = none ↔ goodState.header.dmean = goodState.statMean) :=
  ⟨(c4_undetermined_convention undeterminedStatState).1 (by decide),
   (c4_undetermined_convention goodState).2.1 (by decide),
   (c4_undetermined_convention goodState).2.2.1 (by decide),
   (c4_undetermined_convention undeterminedMeanState).2.2.2.1 (by decide),
   (c4_undetermined_convention goodState).2.2.2.2 (by decide)⟩

end Mrcfile

namespace Mrcfile

/-- C3 witness: the equivalences instantiated at the fully consistent
state. -/
theorem c3_witness :
    (validateResult goodState = true ↔ validateLines goodState = []) ∧
    (validateResult goodState = false ↔ validateLines goodState ≠ []) ∧
    (validateLines goodState).length =
      (allChecks goodState).countP (fun c => c.line.isSome) :=
  c3_result_iff_no_output goodState

end Mrcfile
